import Mathlib

/-!
Verification of the proctoring client's reliability core.

Shallow embedding of:
- `src/proctoring/events/eventQueue.ts` (bounded FIFO event queue),
- `src/proctoring/events/eventEmitter.ts` (throttling + sequencing emitter),
- `src/proctoring/core/mediaConfig.ts` (WebSocket transport / reconnection state
  machine, `sendEvent`),
- the media monitor (`startMediaMonitor`) and
- `src/hooks/useViolationManager.ts` (violation / cooling-period controller).

Conventions of the embedding:
- JavaScript module-level mutable variables become fields of explicit state
  records threaded through the functions.
- `Date.now()` becomes an explicit `now : Nat` argument (epoch milliseconds);
  monotonicity of time across callbacks is modelled by taking `max` with the
  previously observed time.
- `setTimeout` / `setInterval` become explicit "pending timer" fields; the
  run-to-completion callback model of the browser becomes a step function over
  an event alphabet, one event per callback invocation.
- Console logging is ignored (it has no effect on any claim).
- `Math.random`-derived values (UUIDs, alert-id suffixes) become explicit
  input parameters.
-/

/-- Payload of a proctor event (`Record<string, any>` in the source); the
claims never inspect payload contents, so string key/value pairs suffice. -/
abbrev Payload := List (String × String)

/-- Structure `ProctorEvent` from `src/proctoring/events/types.ts`. -/
structure ProctorEvent where
  event_id : String
  session_id : String
  user_id : String
  type : String
  payload : Payload
  timestamp : Nat
  sequence : Nat
deriving DecidableEq

/-- Client → server wire messages of `mediaConfig.ts`:
`{type: "EVENT", event}` and `{type: "BATCH_EVENTS", events}`. -/
inductive WireMsg where
  | eventMsg (event : ProctorEvent)
  | batchEvents (events : List ProctorEvent)
deriving DecidableEq

/-- The values the transport's state-change callback can carry.  In the source
the callback type is literally
`(state: "connected" | "disconnected" | "reconnecting") => void`. -/
inductive CallbackState where
  | connected
  | disconnected
  | reconnecting
deriving DecidableEq

/- ### Event queue (`eventQueue.ts`) -/

/-- Constant `MAX_QUEUE_SIZE = 500`. -/
def MAX_QUEUE_SIZE : Nat := 500

/-- Function `enqueueEvent`: if at capacity, `queue.shift()` drops the oldest entry,
then `queue.push(event)` appends the new one.  Never fails. -/
def enqueueEvent (queue : List ProctorEvent) (event : ProctorEvent) :
    List ProctorEvent :=
  let queue := if MAX_QUEUE_SIZE ≤ queue.length then queue.drop 1 else queue
  queue ++ [event]

/-- Function `dequeueAll`: returns a copy of all entries in insertion order and empties
the queue.  First component: the returned events; second: the new queue. -/
def dequeueAll (queue : List ProctorEvent) :
    List ProctorEvent × List ProctorEvent :=
  (queue, [])

/-- Function `hasQueuedEvents`: `queue.length > 0`. -/
def hasQueuedEvents (queue : List ProctorEvent) : Bool :=
  0 < queue.length

/-- Function `getQueueSize`. -/
def getQueueSize (queue : List ProctorEvent) : Nat :=
  queue.length

/- ### Transport state (`mediaConfig.ts` module variables) -/

/-- Ready states of a browser WebSocket. -/
inductive WSReady where
  | CONNECTING
  | OPEN
  | CLOSING
  | CLOSED
deriving DecidableEq

/-- The transport module's mutable state.  Besides the module-level variables
of `mediaConfig.ts` (`socket`, `reconnectTimer`, `currentSessionId`,
`currentUserId`, `isConnected`, `isManualDisconnect`) it carries:
- `socketArgs`: the `(sessionId, userId)` closure arguments baked into the
  current socket's `onclose` handler;
- `pendingTimers`: how many reconnect timeouts are actually scheduled in the
  runtime (a `setTimeout` schedules one; `clearTimeout` and firing remove it);
- `orphans`: closure arguments of sockets that were detached from the module
  variable but whose `onclose` callback may still fire later;
- the shared module queue of `eventQueue.ts`, the log of messages given to
  `socket.send`, the log of values passed to the state-change callback, and a
  count of how many times a connection attempt was started. -/
structure TransportState where
  socket : Option WSReady
  socketArgs : Option (String × String)
  reconnectTimer : Option (String × String)
  pendingTimers : Nat
  isConnected : Bool
  isManualDisconnect : Bool
  currentSessionId : Option String
  currentUserId : Option String
  orphans : List (String × String)
  queue : List ProctorEvent
  sentMsgs : List WireMsg
  notifications : List CallbackState
  connectAttempts : Nat
deriving DecidableEq

/-- State at module load: every variable `null` / `false`, queue empty. -/
def initTransport : TransportState :=
  { socket := none
    socketArgs := none
    reconnectTimer := none
    pendingTimers := 0
    isConnected := false
    isManualDisconnect := false
    currentSessionId := none
    currentUserId := none
    orphans := []
    queue := []
    sentMsgs := []
    notifications := []
    connectAttempts := 0 }

/-- Function `scheduleReconnect`: `if (reconnectTimer || isManualDisconnect) return;`
then notify `"reconnecting"` and schedule one timeout whose callback will
reconnect with the captured `(sessionId, userId)`. -/
def scheduleReconnect (s : TransportState) (sessionId userId : String) :
    TransportState :=
  if s.reconnectTimer.isSome || s.isManualDisconnect then s
  else
    { s with
      notifications := s.notifications ++ [CallbackState.reconnecting]
      reconnectTimer := some (sessionId, userId)
      pendingTimers := s.pendingTimers + 1 }

/-- Body of `connectSocket`'s non-no-op path: record the session, clear the
manual-disconnect flag, and construct the WebSocket.  `ctorFails` models the
`new WebSocket(url)` constructor throwing, which the `catch` turns into
`scheduleReconnect`. -/
def connectBody (s : TransportState) (sessionId userId : String)
    (ctorFails : Bool) : TransportState :=
  let s := { s with
    currentSessionId := some sessionId
    currentUserId := some userId
    isManualDisconnect := false
    connectAttempts := s.connectAttempts + 1 }
  if ctorFails then scheduleReconnect s sessionId userId
  else { s with
    socket := some WSReady.CONNECTING
    socketArgs := some (sessionId, userId) }

/-- Function `connectSocket`: no-op when
`socket && socket.readyState !== WebSocket.CLOSED`. -/
def connectSocket (s : TransportState) (sessionId userId : String)
    (ctorFails : Bool) : TransportState :=
  match s.socket with
  | some rs =>
    if rs = WSReady.CLOSED then connectBody s sessionId userId ctorFails else s
  | none => connectBody s sessionId userId ctorFails

/-- The `socket.onclose` handler body: clear `isConnected`, null the module
`socket` variable, notify `"disconnected"`, and reconnect unless the close
came from a manual disconnect.  `(sessionId, userId)` are the closure
arguments captured when the handler was installed. -/
def oncloseBody (s : TransportState) (sessionId userId : String) :
    TransportState :=
  let s := { s with
    isConnected := false
    socket := none
    socketArgs := none
    notifications := s.notifications ++ [CallbackState.disconnected] }
  if s.isManualDisconnect then s else scheduleReconnect s sessionId userId

/-- Function `disconnectSocket`: set the manual flag, cancel a pending reconnect timer,
close and detach the socket (its `onclose` may still fire later: the socket
joins `orphans`), clear the session, notify `"disconnected"`. -/
def disconnectSocket (s : TransportState) : TransportState :=
  let s := { s with isManualDisconnect := true }
  let s :=
    match s.reconnectTimer with
    | some _ =>
      { s with reconnectTimer := none, pendingTimers := s.pendingTimers - 1 }
    | none => s
  let s :=
    match s.socketArgs with
    | some a =>
      { s with socket := none, socketArgs := none, orphans := s.orphans ++ [a] }
    | none => { s with socket := none, socketArgs := none }
  { s with
    isConnected := false
    currentSessionId := none
    currentUserId := none
    notifications := s.notifications ++ [CallbackState.disconnected] }

/-- Function `sendEvent`: if `socket?.readyState === WebSocket.OPEN`, send a
single-event message; otherwise do nothing (the event stays queued).  A
throwing `socket.send` is caught and only logged, so it never affects state
beyond the message not being delivered. -/
def sendEvent (s : TransportState) (event : ProctorEvent) : TransportState :=
  if s.socket = some WSReady.OPEN then
    { s with sentMsgs := s.sentMsgs ++ [WireMsg.eventMsg event] }
  else s

/-- Callback events the transport reacts to, one per run-to-completion
callback invocation. -/
inductive TEvent where
  | connect (sessionId userId : String) (ctorFails : Bool)
  | openEvt
  | closeEvt
  | errorEvt
  | staleCloseAt (i : Nat)
  | timerFire (ctorFails : Bool)
  | disconnect
deriving DecidableEq

/-- Whether the event is an external `connectSocket` call. -/
def isConnectCall : TEvent → Bool
  | TEvent.connect _ _ _ => true
  | _ => false

/-- One transport step.
- `connect`: an external `connectSocket(sessionId, userId)` call.
- `openEvt`: the current socket's `onopen` fires (only a CONNECTING socket can
  open): set `isConnected`, notify `"connected"`, and if the queue is
  non-empty, `dequeueAll` and send one `BATCH_EVENTS` message.
- `closeEvt`: the current socket's `onclose` fires.
- `errorEvt`: `onerror` fires and calls `socket?.close()`, moving a
  CONNECTING/OPEN socket to CLOSING (its `onclose` follows later).
- `staleCloseAt i`: the `onclose` of the i-th orphaned socket fires; the
  handler body nulls the module `socket` variable, so a live current socket
  would itself become orphaned.
- `timerFire`: a scheduled reconnect timeout fires: null the timer variable
  and call `connectSocket` with the captured arguments.
- `disconnect`: an external `disconnectSocket()` call.
Events whose callback cannot currently fire leave the state unchanged. -/
def stepT (s : TransportState) (e : TEvent) : TransportState :=
  match e with
  | TEvent.connect sessionId userId f => connectSocket s sessionId userId f
  | TEvent.openEvt =>
    match s.socket with
    | some WSReady.CONNECTING =>
      let s := { s with
        socket := some WSReady.OPEN
        isConnected := true
        notifications := s.notifications ++ [CallbackState.connected] }
      if hasQueuedEvents s.queue then
        let drained := dequeueAll s.queue
        { s with
          queue := drained.2
          sentMsgs := s.sentMsgs ++ [WireMsg.batchEvents drained.1] }
      else s
    | _ => s
  | TEvent.closeEvt =>
    match s.socket, s.socketArgs with
    | some _, some a => oncloseBody s a.1 a.2
    | _, _ => s
  | TEvent.errorEvt =>
    match s.socket with
    | some WSReady.CONNECTING => { s with socket := some WSReady.CLOSING }
    | some WSReady.OPEN => { s with socket := some WSReady.CLOSING }
    | _ => s
  | TEvent.staleCloseAt i =>
    match s.orphans[i]? with
    | some a =>
      let s1 := { s with
        orphans := s.orphans.eraseIdx i ++
          (match s.socketArgs with | some b => [b] | none => []) }
      oncloseBody s1 a.1 a.2
    | none => s
  | TEvent.timerFire f =>
    if s.pendingTimers = 0 then s
    else
      match s.reconnectTimer with
      | some a =>
        let s := { s with
          pendingTimers := s.pendingTimers - 1
          reconnectTimer := none }
        connectSocket s a.1 a.2 f
      | none => s
  | TEvent.disconnect => disconnectSocket s

/-- Run the transport from module load through a list of callback events. -/
def runTransport (tr : List TEvent) : TransportState :=
  List.foldl stepT initTransport tr

/- ### Event emitter (`eventEmitter.ts`) -/

/-- Table `THROTTLE_INTERVALS` lookup with the `|| 0` default for unconfigured
types. -/
def THROTTLE_INTERVALS (type : String) : Nat :=
  if type = "camera_status" then 1000
  else if type = "mic_status" then 1000
  else if type = "tab_blur" then 2000
  else if type = "fullscreen_exit" then 1000
  else if type = "stream_lost" then 5000
  else 0

/-- Emitter module state: the `sequence` counter and the `lastEmitTime`
record (association list; updates shadow older bindings, `List.lookup` reads
the most recent one). -/
structure EmitterState where
  sequence : Nat
  lastEmitTime : List (String × Nat)
deriving DecidableEq

/-- Record update `lastEmitTime[type] = now`. -/
def setEntry (m : List (String × Nat)) (k : String) (v : Nat) :
    List (String × Nat) :=
  (k, v) :: m

/-- Function `shouldThrottle(type)`: returns whether the event is suppressed and the
updated emitter state.  Mirrors the JS truthiness test
`if (!lastTime || now - lastTime >= throttleMs)`: an absent entry and a stored
`0` are both falsy. -/
def shouldThrottle (es : EmitterState) (type : String) (now : Nat) :
    Bool × EmitterState :=
  let throttleMs := THROTTLE_INTERVALS type
  if throttleMs = 0 then (false, es)
  else
    match es.lastEmitTime.lookup type with
    | none =>
      (false, { es with lastEmitTime := setEntry es.lastEmitTime type now })
    | some lastTime =>
      if lastTime = 0 then
        (false, { es with lastEmitTime := setEntry es.lastEmitTime type now })
      else if throttleMs ≤ now - lastTime then
        (false, { es with lastEmitTime := setEntry es.lastEmitTime type now })
      else (true, es)

/-- One `emitProctorEvent(sessionId, userId, type, payload)` call, with the
ambient inputs made explicit: `now` is `Date.now()` and `eventId` the freshly
generated UUID. -/
structure EmitCall where
  sessionId : String
  userId : String
  type : String
  payload : Payload
  now : Nat
  eventId : String
deriving DecidableEq

/-- Function `emitProctorEvent`: throttle check first (a suppressed call returns before
touching the sequence or the queue); otherwise build the event with
`sequence: ++sequence`, enqueue it, then attempt a best-effort send.  Returns
the new emitter state, the new transport state (which holds the queue), and
the constructed event if one was emitted. -/
def emitProctorEvent (es : EmitterState) (ts : TransportState) (c : EmitCall) :
    EmitterState × TransportState × Option ProctorEvent :=
  let thr := shouldThrottle es c.type c.now
  if thr.1 then (thr.2, ts, none)
  else
    let es2 : EmitterState := { thr.2 with sequence := thr.2.sequence + 1 }
    let event : ProctorEvent :=
      { event_id := c.eventId
        session_id := c.sessionId
        user_id := c.userId
        type := c.type
        payload := c.payload
        timestamp := c.now
        sequence := es2.sequence }
    let ts := { ts with queue := enqueueEvent ts.queue event }
    let ts := sendEvent ts event
    (es2, ts, some event)

/-- Function `resetSequence`: `sequence = 0` (the throttle record is untouched). -/
def resetSequence (es : EmitterState) : EmitterState :=
  { es with sequence := 0 }

/-- Run a list of `emit` calls, collecting the events actually emitted (the
non-suppressed ones) in call order. -/
def runEmits :
    EmitterState → TransportState → List EmitCall →
      EmitterState × TransportState × List ProctorEvent
  | es, ts, [] => (es, ts, [])
  | es, ts, c :: rest =>
    let r := emitProctorEvent es ts c
    let r2 := runEmits r.1 r.2.1 rest
    (r2.1, r2.2.1, r.2.2.toList ++ r2.2.2)

/- ### Device status monitor (`startMediaMonitor`) -/

/-- Structure `MediaRequirements` from `mediaConfig.ts`. -/
structure MediaRequirements where
  camera : Bool
  microphone : Bool
deriving DecidableEq

/-- A media track's observable state: `readyState` (`"live"` or `"ended"`)
and `enabled`. -/
inductive TrackReady where
  | live
  | ended
deriving DecidableEq

structure MediaTrack where
  readyState : TrackReady
  enabled : Bool
deriving DecidableEq

/-- What `getVideoTracks()` / `getAudioTracks()` report on one poll. -/
structure MediaStreamObs where
  videoTracks : List MediaTrack
  audioTracks : List MediaTrack
deriving DecidableEq

/-- The monitor's two closure variables `lastCameraStatus` / `lastMicStatus`
(`boolean | null`). -/
structure MonitorState where
  lastCameraStatus : Option Bool
  lastMicStatus : Option Bool
deriving DecidableEq

/-- Events the monitor passes to its `emitEvent` callback; the status string
is the `"on"` / `"off"` payload field. -/
inductive MonitorEvent where
  | streamLost
  | cameraStatus (status : String)
  | micStatus (status : String)
deriving DecidableEq

/-- Computation `videoTracks.length > 0 && videoTracks[0]?.readyState === "live" &&
videoTracks[0]?.enabled`. -/
def trackOn (tracks : List MediaTrack) : Bool :=
  match tracks with
  | [] => false
  | t :: _ => t.readyState = TrackReady.live && t.enabled

/-- One `checkMediaStatus` poll: stream-lost check, then edge-triggered
status events for required devices only (camera first, then microphone).
Returns the new monitor state and the events emitted on this poll. -/
def checkMediaStatus (stream : Option MediaStreamObs)
    (requirements : MediaRequirements) (st : MonitorState) :
    MonitorState × List MonitorEvent :=
  match stream with
  | none =>
    if requirements.camera || requirements.microphone then
      (st, [MonitorEvent.streamLost])
    else (st, [])
  | some obs =>
    let cameraOn := trackOn obs.videoTracks
    let micOn := trackOn obs.audioTracks
    let camPart :
        MonitorState × List MonitorEvent :=
      if requirements.camera && !(st.lastCameraStatus == some cameraOn) then
        ({ st with lastCameraStatus := some cameraOn },
          [MonitorEvent.cameraStatus (if cameraOn then "on" else "off")])
      else (st, [])
    let st1 := camPart.1
    if requirements.microphone && !(st1.lastMicStatus == some micOn) then
      ({ st1 with lastMicStatus := some micOn },
        camPart.2 ++ [MonitorEvent.micStatus (if micOn then "on" else "off")])
    else (st1, camPart.2)

/-- Run `n` consecutive polls against a constant observation, concatenating the
emitted events. -/
def runMonitorPolls (stream : Option MediaStreamObs)
    (requirements : MediaRequirements) (st : MonitorState) :
    Nat → MonitorState × List MonitorEvent
  | 0 => (st, [])
  | n + 1 =>
    let r := checkMediaStatus stream requirements st
    let rest := runMonitorPolls stream requirements r.1 n
    (rest.1, r.2 ++ rest.2)

/- ### Violation / cooling-period controller (`useViolationManager.ts`) -/

/-- Constant `COOLING_PERIOD_DURATION = 60` (seconds). -/
def COOLING_PERIOD_DURATION : Nat := 60

inductive VType where
  | no_face
  | multiple_faces
  | object_detected
  | looking_away
deriving DecidableEq

structure ViolationAlert where
  id : String
  type : VType
  message : String
  timestamp : Nat
  image : Option String
deriving DecidableEq

structure CoolingPeriodStatus where
  active : Bool
  remainingSeconds : Nat
  startTime : Option Nat
deriving DecidableEq

/-- The hook's state: React state (`alerts`, `coolingPeriod`), the two timer
refs modelled as the runtime's actually pending timers (`coolingPending` is
the absolute time at which the terminal timeout is scheduled to fire;
`countdownPending` is the `startTime` captured by the live countdown
interval's closure), plus the last observed wall-clock time `now`. -/
structure ViolationState where
  now : Nat
  alerts : List ViolationAlert
  coolingPeriod : CoolingPeriodStatus
  coolingPending : Option Nat
  countdownPending : Option Nat
deriving DecidableEq

def initViolation : ViolationState :=
  { now := 0
    alerts := []
    coolingPeriod := { active := false, remainingSeconds := 0, startTime := none }
    coolingPending := none
    countdownPending := none }

/-- Function `startCoolingPeriod`: clear both existing timers, set
`{active: true, remainingSeconds: 60, startTime: Date.now()}`, start a fresh
1-second countdown interval (capturing `startTime`) and a fresh terminal
timeout at `startTime + 60 * 1000`. -/
def startCoolingPeriod (s : ViolationState) : ViolationState :=
  let s := { s with coolingPending := none, countdownPending := none }
  let startTime := s.now
  { s with
    coolingPeriod :=
      { active := true
        remainingSeconds := COOLING_PERIOD_DURATION
        startTime := some startTime }
    countdownPending := some startTime
    coolingPending := some (startTime + COOLING_PERIOD_DURATION * 1000) }

/-- One firing of the countdown interval:
`remaining = max(0, 60 - floor((Date.now() - startTime) / 1000))` (in `Nat`
the truncated subtraction is exactly the `Math.max(0, ...)`), update only
`remainingSeconds` (functional `setState` spread), and self-clear the
interval when the remainder reaches zero. -/
def countdownTick (s : ViolationState) : ViolationState :=
  match s.countdownPending with
  | none => s
  | some startTime =>
    let elapsed := (s.now - startTime) / 1000
    let remaining := COOLING_PERIOD_DURATION - elapsed
    let s := { s with
      coolingPeriod := { s.coolingPeriod with remainingSeconds := remaining } }
    if remaining = 0 then { s with countdownPending := none } else s

/-- The terminal timeout firing (it can fire only at or after its scheduled
time): `{active: false, remainingSeconds: 0, startTime: null}`.  The source
does not clear the countdown interval here; it is left to self-clear. -/
def coolingExpire (s : ViolationState) : ViolationState :=
  match s.coolingPending with
  | some sched =>
    if sched ≤ s.now then
      { s with
        coolingPending := none
        coolingPeriod :=
          { active := false, remainingSeconds := 0, startTime := none } }
    else s
  | none => s

/-- Function `addViolation(type, message, capturedImage?)`: append the alert (id built
from the timestamp and a random suffix `rnd`), then `startCoolingPeriod()`. -/
def addViolation (s : ViolationState) (type : VType) (message : String)
    (image : Option String) (rnd : String) : ViolationState :=
  let alert : ViolationAlert :=
    { id := toString s.now ++ "-" ++ rnd
      type := type
      message := message
      timestamp := s.now
      image := image }
  let s := { s with alerts := s.alerts ++ [alert] }
  startCoolingPeriod s

/-- Timed events of the controller: a violation recorded at wall-clock `t`, a
countdown-interval firing at `t`, the terminal timeout firing at `t`. -/
inductive VEvent where
  | violation (t : Nat) (type : VType) (message : String)
      (image : Option String) (rnd : String)
  | tick (t : Nat)
  | expire (t : Nat)
deriving DecidableEq

/-- Advance the wall clock to `t` (time never runs backwards). -/
def advanceClock (s : ViolationState) (t : Nat) : ViolationState :=
  { s with now := max s.now t }

/-- One controller step; timer events whose timer is not pending (or, for the
terminal timeout, not yet due) change nothing. -/
def vstep (s : ViolationState) (e : VEvent) : ViolationState :=
  match e with
  | VEvent.violation t ty msg img rnd =>
    addViolation (advanceClock s t) ty msg img rnd
  | VEvent.tick t => countdownTick (advanceClock s t)
  | VEvent.expire t => coolingExpire (advanceClock s t)

/-- Run the controller from its initial state through a list of events. -/
def runV (tr : List VEvent) : ViolationState :=
  List.foldl vstep initViolation tr

/- ### Invariant predicates -/

/-- The number of reconnect timeouts actually pending in the runtime always
mirrors the `reconnectTimer` module variable: one when it holds a handle,
zero when it is `null`. -/
def TimerInv (s : TransportState) : Prop :=
  s.pendingTimers = (if s.reconnectTimer.isSome then 1 else 0)

/-- After a manual disconnect (and until the next `connectSocket` call) the
transport is frozen: manual flag set, no reconnect timer pending, no timer
handle, no socket. -/
def Frozen (s : TransportState) : Prop :=
  s.isManualDisconnect = true ∧ s.pendingTimers = 0 ∧
    s.reconnectTimer = none ∧ s.socket = none

/-- Inductive invariant of the cooling-period controller, relating the
displayed status to the pending timers and the wall clock. -/
def VInv (s : ViolationState) : Prop :=
  (s.coolingPeriod.active = false →
    s.coolingPeriod.remainingSeconds = 0 ∧
    s.coolingPeriod.startTime = none ∧
    s.coolingPending = none ∧
    (∀ st, s.countdownPending = some st →
      st + COOLING_PERIOD_DURATION * 1000 ≤ s.now)) ∧
  (s.coolingPeriod.active = true →
    ∃ st, s.coolingPeriod.startTime = some st ∧
      s.coolingPending = some (st + COOLING_PERIOD_DURATION * 1000) ∧
      (∀ st2, s.countdownPending = some st2 → st2 = st) ∧
      ∃ tL, st ≤ tL ∧ tL ≤ s.now ∧
        s.coolingPeriod.remainingSeconds =
          COOLING_PERIOD_DURATION - (tL - st) / 1000)

/- ### Lemmas about the bounded queue -/

/-- Folding `enqueueEvent` keeps the last `MAX_QUEUE_SIZE` events: from any
queue within capacity, the result is the suffix of `q ++ es` that fits. -/
theorem foldl_enqueue_eq_drop (es : List ProctorEvent) :
    ∀ q : List ProctorEvent, q.length ≤ MAX_QUEUE_SIZE →
    List.foldl enqueueEvent q es =
      (q ++ es).drop (q.length + es.length - MAX_QUEUE_SIZE) := by
  induction es with
  | nil =>
    intro q hq
    simp only [List.foldl_nil, List.append_nil, List.length_nil, Nat.add_zero]
    rw [Nat.sub_eq_zero_of_le hq, List.drop_zero]
  | cons e es ih =>
    intro q hq
    have hM : MAX_QUEUE_SIZE = 500 := rfl
    simp only [List.foldl_cons]
    by_cases h : MAX_QUEUE_SIZE ≤ q.length
    · have hqlen : q.length = MAX_QUEUE_SIZE := Nat.le_antisymm hq h
      have henq : enqueueEvent q e = q.drop 1 ++ [e] := by
        simp [enqueueEvent, h]
      have hlen2 : (q.drop 1 ++ [e]).length = MAX_QUEUE_SIZE := by
        simp only [List.length_append, List.length_drop, List.length_singleton,
          List.length_cons, List.length_nil, MAX_QUEUE_SIZE]
        omega
      rw [henq, ih _ (Nat.le_of_eq hlen2), hlen2, hqlen]
      have h1 : MAX_QUEUE_SIZE + es.length - MAX_QUEUE_SIZE = es.length := by
        omega
      have h2 : MAX_QUEUE_SIZE + (e :: es).length - MAX_QUEUE_SIZE =
          es.length + 1 := by
        simp only [List.length_cons]; omega
      rw [h1, h2]
      have hq1 : (q ++ e :: es).drop 1 = q.drop 1 ++ e :: es :=
        List.drop_append_of_le_length (by omega)
      have hdd : (q ++ e :: es).drop (es.length + 1) =
          ((q ++ e :: es).drop 1).drop es.length := by
        rw [List.drop_drop, Nat.add_comm]
      rw [hdd, hq1, List.append_assoc, List.singleton_append]
    · have henq : enqueueEvent q e = q ++ [e] := by
        simp [enqueueEvent, h]
      have hlen2 : (q ++ [e]).length ≤ MAX_QUEUE_SIZE := by
        simp only [List.length_append, List.length_singleton, List.length_cons,
          List.length_nil, MAX_QUEUE_SIZE]; omega
      rw [henq, ih _ hlen2]
      have harg : ((q ++ [e]) ++ es) = q ++ e :: es := by
        rw [List.append_assoc, List.singleton_append]
      rw [harg]
      have hidx : (q ++ [e]).length + es.length - MAX_QUEUE_SIZE =
          q.length + (e :: es).length - MAX_QUEUE_SIZE := by
        simp only [List.length_append, List.length_singleton, List.length_cons,
          List.length_nil, MAX_QUEUE_SIZE]
        omega
      rw [hidx]

/-- Within capacity, enqueuing preserves all events in emission order. -/
theorem foldl_enqueue_within_capacity (es : List ProctorEvent)
    (h : es.length ≤ MAX_QUEUE_SIZE) :
    List.foldl enqueueEvent [] es = es := by
  have hfold := foldl_enqueue_eq_drop es [] (by simp)
  rw [hfold, List.nil_append]
  have hz : ([] : List ProctorEvent).length + es.length - MAX_QUEUE_SIZE = 0 := by
    simp only [List.length_nil, Nat.zero_add]
    omega
  rw [hz, List.drop_zero]

/-- C3: enqueuing 600 events (numbered 1..600 through any event constructor
`f`) into the empty 500-capacity queue leaves exactly the 500 events numbered
101..600, in their original order.  `enqueueEvent` is a total function (it
never raises an error): at capacity it evicts the single oldest entry and
appends the new one. -/
theorem c3_queue_eviction_600 :
    ∀ f : Nat → ProctorEvent,
    List.foldl enqueueEvent [] ((List.range' 1 600).map f) =
      (List.range' 101 500).map f ∧
    (List.foldl enqueueEvent [] ((List.range' 1 600).map f)).length =
      MAX_QUEUE_SIZE := by
  intro f
  have hsplit : List.range' 1 600 = List.range' 1 100 ++ List.range' 101 500 := by
    have h := List.range'_append 1 100 500 1
    simp at h
    exact h.symm
  have hmain :
      List.foldl enqueueEvent [] ((List.range' 1 600).map f) =
        (List.range' 101 500).map f := by
    have h := foldl_enqueue_eq_drop ((List.range' 1 600).map f) []
      (by simp [MAX_QUEUE_SIZE])
    rw [h]
    simp only [List.nil_append, List.length_nil, Nat.zero_add,
      List.length_map, List.length_range']
    rw [hsplit, List.map_append]
    have hlen100 : ((List.range' 1 100).map f).length = 100 := by simp
    rw [show (600 : Nat) - MAX_QUEUE_SIZE = ((List.range' 1 100).map f).length by
      simp [MAX_QUEUE_SIZE]]
    exact List.drop_left _ _
  refine ⟨hmain, ?_⟩
  rw [hmain]
  simp [MAX_QUEUE_SIZE]

/-- C2: with `K ≥ 1` events in the queue (queued in emission order: folding
`enqueueEvent` over at most capacity-many events preserves them all in
order), a successful connection open sends exactly one `BATCH_EVENTS` message
containing all of them in order, after which the queue is empty, so a second
`dequeueAll` observes no entry of the first. -/
theorem c2_batch_flush_on_open :
    ∀ (evs : List ProctorEvent) (e : ProctorEvent) (es' : List ProctorEvent)
      (base : TransportState),
    List.foldl enqueueEvent [] (evs.take MAX_QUEUE_SIZE) =
      evs.take MAX_QUEUE_SIZE ∧
    (stepT { base with socket := some WSReady.CONNECTING, queue := e :: es' }
        TEvent.openEvt).queue = [] ∧
    (stepT { base with socket := some WSReady.CONNECTING, queue := e :: es' }
        TEvent.openEvt).sentMsgs =
      base.sentMsgs ++ [WireMsg.batchEvents (e :: es')] ∧
    (dequeueAll (stepT { base with socket := some WSReady.CONNECTING, queue := e :: es' }
        TEvent.openEvt).queue).1 = [] := by
  intro evs e es' base
  refine ⟨?_, ?_⟩
  · exact foldl_enqueue_within_capacity _ (List.length_take_le _ _)
  · simp [stepT, hasQueuedEvents, dequeueAll]

/- ### Frame lemmas: what can touch the queue -/

/-- Function `sendEvent` never reads or writes the queue. -/
theorem sendEvent_queue (ts : TransportState) (event : ProctorEvent) :
    (sendEvent ts event).queue = ts.queue := by
  unfold sendEvent
  split <;> rfl

theorem scheduleReconnect_queue (s : TransportState) (a b : String) :
    (scheduleReconnect s a b).queue = s.queue := by
  unfold scheduleReconnect
  split <;> rfl

theorem connectBody_queue (s : TransportState) (a b : String) (f : Bool) :
    (connectBody s a b f).queue = s.queue := by
  unfold connectBody
  split
  · rw [scheduleReconnect_queue]
  · rfl

theorem connectSocket_queue (s : TransportState) (a b : String) (f : Bool) :
    (connectSocket s a b f).queue = s.queue := by
  unfold connectSocket
  split
  · split
    · rw [connectBody_queue]
    · rfl
  · rw [connectBody_queue]

theorem oncloseBody_queue (s : TransportState) (a b : String) :
    (oncloseBody s a b).queue = s.queue := by
  simp only [oncloseBody]
  split
  · rfl
  · rw [scheduleReconnect_queue]

theorem disconnectSocket_queue (s : TransportState) :
    (disconnectSocket s).queue = s.queue := by
  simp only [disconnectSocket]
  cases h1 : s.reconnectTimer <;> cases h2 : s.socketArgs <;> rfl

/-- The only transport callback that removes anything from the queue is the
`onopen` batch drain. -/
theorem stepT_queue_frame (u : TransportState) (e : TEvent) :
    (stepT u e).queue = u.queue ∨ e = TEvent.openEvt := by
  cases e with
  | connect a b f => exact Or.inl (connectSocket_queue u a b f)
  | openEvt => exact Or.inr rfl
  | closeEvt =>
    refine Or.inl ?_
    simp only [stepT]
    cases h1 : u.socket <;> cases h2 : u.socketArgs <;>
      simp [oncloseBody_queue]
  | errorEvt =>
    refine Or.inl ?_
    simp only [stepT]
    cases h1 : u.socket with
    | none => rfl
    | some rs => cases rs <;> rfl
  | staleCloseAt i =>
    refine Or.inl ?_
    simp only [stepT]
    cases h1 : u.orphans[i]? <;> simp [oncloseBody_queue]
  | timerFire f =>
    refine Or.inl ?_
    simp only [stepT]
    by_cases h : u.pendingTimers = 0
    · simp [h]
    · simp only [h, if_false]
      cases h2 : u.reconnectTimer <;> simp [connectSocket_queue]
  | disconnect => exact Or.inl (disconnectSocket_queue u)

/-- C4: a suppressed `emit` call leaves the transport (queue included)
untouched; a non-suppressed one constructs an event, enqueues it, and the
subsequent best-effort send leaves the queue exactly `enqueueEvent` of the
old queue — the event is still in the queue after a successful send, the
send itself never changes the queue, and no transport callback other than
the `onopen` batch drain ever changes the queue. -/
theorem c4_enqueue_before_send :
    ∀ (es : EmitterState) (ts : TransportState) (c : EmitCall),
    ((shouldThrottle es c.type c.now).1 = true ∧
      (emitProctorEvent es ts c).2.2 = none ∧
      (emitProctorEvent es ts c).2.1 = ts) ∨
    ((shouldThrottle es c.type c.now).1 = false ∧
      ∃ ev, (emitProctorEvent es ts c).2.2 = some ev ∧
        (emitProctorEvent es ts c).2.1.queue = enqueueEvent ts.queue ev ∧
        ev ∈ (emitProctorEvent es ts c).2.1.queue ∧
        (∀ (ts2 : TransportState) (ev2 : ProctorEvent),
          (sendEvent ts2 ev2).queue = ts2.queue) ∧
        (∀ (u : TransportState) (e2 : TEvent),
          (stepT u e2).queue = u.queue ∨ e2 = TEvent.openEvt)) := by
  intro es ts c
  by_cases h : (shouldThrottle es c.type c.now).1
  · left
    refine ⟨h, ?_, ?_⟩ <;> simp [emitProctorEvent, h]
  · right
    have hf : (shouldThrottle es c.type c.now).1 = false := by simpa using h
    refine ⟨hf, ?_⟩
    refine ⟨⟨c.eventId, c.sessionId, c.userId, c.type, c.payload, c.now,
        (shouldThrottle es c.type c.now).2.sequence + 1⟩,
      ?_, ?_, ?_, sendEvent_queue, stepT_queue_frame⟩
    · simp [emitProctorEvent, hf]
    · simp [emitProctorEvent, hf, sendEvent_queue]
    · simp only [emitProctorEvent, hf, Bool.false_eq_true, if_false]
      rw [sendEvent_queue]
      simp [enqueueEvent]

/- ### Sequencing lemmas -/

/-- The throttle check never changes the sequence counter. -/
theorem shouldThrottle_sequence (es : EmitterState) (ty : String) (now : Nat) :
    ((shouldThrottle es ty now).2).sequence = es.sequence := by
  simp only [shouldThrottle]
  split
  · rfl
  · split
    · rfl
    · split
      · rfl
      · split <;> rfl

/-- One `emit` call either suppresses (no event, counter unchanged) or emits
one event carrying the next sequence number, advancing the counter by one. -/
theorem emitProctorEvent_cases (es : EmitterState) (ts : TransportState)
    (c : EmitCall) :
    ((emitProctorEvent es ts c).2.2 = none ∧
      (emitProctorEvent es ts c).1.sequence = es.sequence) ∨
    (∃ ev, (emitProctorEvent es ts c).2.2 = some ev ∧
      ev.sequence = es.sequence + 1 ∧
      (emitProctorEvent es ts c).1.sequence = es.sequence + 1) := by
  by_cases h : (shouldThrottle es c.type c.now).1
  · left
    constructor <;> simp [emitProctorEvent, h, shouldThrottle_sequence]
  · right
    have hf : (shouldThrottle es c.type c.now).1 = false := by simpa using h
    refine ⟨⟨c.eventId, c.sessionId, c.userId, c.type, c.payload, c.now,
      (shouldThrottle es c.type c.now).2.sequence + 1⟩, ?_, ?_, ?_⟩
    · simp [emitProctorEvent, hf]
    · simp [shouldThrottle_sequence]
    · simp [emitProctorEvent, hf, shouldThrottle_sequence]

/-- Running a batch of `emit` calls assigns the emitted (non-suppressed)
events consecutive sequence numbers starting right above the current counter,
and advances the counter by exactly the number of emitted events. -/
theorem runEmits_sequences (calls : List EmitCall) :
    ∀ (es : EmitterState) (ts : TransportState),
    ((runEmits es ts calls).2.2).map (fun ev => ev.sequence) =
      List.range' (es.sequence + 1) ((runEmits es ts calls).2.2).length ∧
    (runEmits es ts calls).1.sequence =
      es.sequence + ((runEmits es ts calls).2.2).length := by
  induction calls with
  | nil => intro es ts; simp [runEmits]
  | cons c rest ih =>
    intro es ts
    simp only [runEmits]
    have hrec := ih (emitProctorEvent es ts c).1 (emitProctorEvent es ts c).2.1
    rcases emitProctorEvent_cases es ts c with ⟨hnone, hseq⟩ | ⟨ev, hsome, hevseq, hseq⟩
    · rw [hseq] at hrec
      rw [hnone]
      simpa using hrec
    · rw [hseq] at hrec
      rw [hsome]
      simp only [Option.toList_some, List.singleton_append, List.map_cons,
        List.length_cons]
      refine ⟨?_, ?_⟩
      · rw [hrec.1, hevseq, List.range'_succ]
      · rw [hrec.2]
        omega

/-- C1: within one session (right after `resetSequence`), the events actually
emitted by any batch of `emit` calls carry the sequence numbers `1..N` in
order (no duplicates, no gaps), where `N` is the number of non-suppressed
calls, independent of the transport's connection state; and the counter ends
at exactly `N`, so suppressed calls consume no sequence number. -/
theorem c1_emit_sequences_complete :
    ∀ (es : EmitterState) (ts : TransportState) (calls : List EmitCall),
    ((runEmits (resetSequence es) ts calls).2.2).map (fun ev => ev.sequence) =
      List.range' 1 ((runEmits (resetSequence es) ts calls).2.2).length ∧
    (runEmits (resetSequence es) ts calls).1.sequence =
      ((runEmits (resetSequence es) ts calls).2.2).length := by
  intro es ts calls
  have h := runEmits_sequences calls (resetSequence es) ts
  simpa [resetSequence] using h

/- ### The reconnect-timer invariant (C5) -/

theorem scheduleReconnect_TimerInv (s : TransportState) (a b : String)
    (h : TimerInv s) : TimerInv (scheduleReconnect s a b) := by
  cases hrt : s.reconnectTimer with
  | some p => simpa [TimerInv, scheduleReconnect, hrt] using h
  | none =>
    by_cases hm : s.isManualDisconnect
    · simpa [TimerInv, scheduleReconnect, hrt, hm] using h
    · unfold TimerInv at h
      rw [hrt] at h
      simp only [Option.isSome_none, if_false] at h
      simp [TimerInv, scheduleReconnect, hrt, hm, h]

theorem connectBody_TimerInv (s : TransportState) (a b : String) (f : Bool)
    (h : TimerInv s) : TimerInv (connectBody s a b f) := by
  cases f with
  | false => simpa [TimerInv, connectBody] using h
  | true =>
    simp only [connectBody, if_true]
    exact scheduleReconnect_TimerInv _ a b (by simpa [TimerInv] using h)

theorem connectSocket_TimerInv (s : TransportState) (a b : String) (f : Bool)
    (h : TimerInv s) : TimerInv (connectSocket s a b f) := by
  cases hs : s.socket with
  | none =>
    simp only [connectSocket, hs]
    exact connectBody_TimerInv s a b f h
  | some rs =>
    simp only [connectSocket, hs]
    split
    · exact connectBody_TimerInv s a b f h
    · exact h

theorem oncloseBody_TimerInv (s : TransportState) (a b : String)
    (h : TimerInv s) : TimerInv (oncloseBody s a b) := by
  simp only [oncloseBody]
  split
  · simpa [TimerInv] using h
  · exact scheduleReconnect_TimerInv _ a b (by simpa [TimerInv] using h)

theorem disconnectSocket_TimerInv (s : TransportState) (h : TimerInv s) :
    TimerInv (disconnectSocket s) := by
  unfold TimerInv at h
  cases hrt : s.reconnectTimer with
  | some p =>
    rw [hrt] at h
    simp only [Option.isSome_some, if_true] at h
    simp only [disconnectSocket, hrt]
    cases hsa : s.socketArgs <;> simp [TimerInv, h]
  | none =>
    rw [hrt] at h
    simp only [Option.isSome_none, if_false] at h
    simp only [disconnectSocket, hrt]
    cases hsa : s.socketArgs <;> simp [TimerInv, h, hrt]

theorem stepT_TimerInv (s : TransportState) (e : TEvent) (h : TimerInv s) :
    TimerInv (stepT s e) := by
  cases e with
  | connect a b f => exact connectSocket_TimerInv s a b f h
  | openEvt =>
    cases hs : s.socket with
    | none => simpa [stepT, hs] using h
    | some rs =>
      cases rs with
      | CONNECTING =>
        simp only [stepT, hs]
        split <;> simpa [TimerInv] using h
      | OPEN => simpa [stepT, hs] using h
      | CLOSING => simpa [stepT, hs] using h
      | CLOSED => simpa [stepT, hs] using h
  | closeEvt =>
    cases hs : s.socket with
    | none => simpa [stepT, hs] using h
    | some rs =>
      cases hsa : s.socketArgs with
      | none => simpa [stepT, hs, hsa] using h
      | some a =>
        simp only [stepT, hs, hsa]
        exact oncloseBody_TimerInv _ _ _ h
  | errorEvt =>
    cases hs : s.socket with
    | none => simpa [stepT, hs] using h
    | some rs => cases rs <;> simpa [stepT, hs, TimerInv] using h
  | staleCloseAt i =>
    cases ho : s.orphans[i]? with
    | none => simpa [stepT, ho] using h
    | some a =>
      simp only [stepT, ho]
      exact oncloseBody_TimerInv _ _ _ (by simpa [TimerInv] using h)
  | timerFire f =>
    by_cases hp : s.pendingTimers = 0
    · simpa [stepT, hp] using h
    · unfold TimerInv at h
      cases hrt : s.reconnectTimer with
      | none =>
        rw [hrt] at h
        simp only [Option.isSome_none, if_false] at h
        exact absurd h hp
      | some a =>
        rw [hrt] at h
        simp only [Option.isSome_some, if_true] at h
        simp only [stepT, hp, hrt, if_false]
        exact connectSocket_TimerInv _ _ _ _ (by simp [TimerInv, h])
  | disconnect => exact disconnectSocket_TimerInv s h

theorem runTransport_TimerInv (tr : List TEvent) :
    TimerInv (runTransport tr) := by
  have haux : ∀ (l : List TEvent) (s : TransportState), TimerInv s →
      TimerInv (List.foldl stepT s l) := by
    intro l
    induction l with
    | nil => intro s h; simpa using h
    | cons e l ih =>
      intro s h
      simp only [List.foldl_cons]
      exact ih _ (stepT_TimerInv s e h)
  exact haux tr initTransport (by simp [TimerInv, initTransport])

/-- C5: in every reachable transport state, at most one reconnect timeout is
pending in the runtime — two closes in quick succession never schedule two
concurrent reconnection attempts. -/
theorem c5_at_most_one_reconnect_timer :
    ∀ tr : List TEvent, (runTransport tr).pendingTimers ≤ 1 := by
  intro tr
  have h := runTransport_TimerInv tr
  unfold TimerInv at h
  rw [h]
  split <;> omega

/- ### The manual-disconnect freeze (C6) -/

/-- After a manual disconnect, every callback other than an external
`connectSocket` call keeps the transport frozen and starts no connection
attempt. -/
theorem stepT_Frozen (s : TransportState) (e : TEvent) (h : Frozen s)
    (he : isConnectCall e = false) :
    Frozen (stepT s e) ∧ (stepT s e).connectAttempts = s.connectAttempts := by
  obtain ⟨hm, hp, hrt, hs⟩ := h
  cases e with
  | connect a b f => simp [isConnectCall] at he
  | openEvt =>
    have hid : stepT s TEvent.openEvt = s := by simp [stepT, hs]
    rw [hid]
    exact ⟨⟨hm, hp, hrt, hs⟩, rfl⟩
  | closeEvt =>
    have hid : stepT s TEvent.closeEvt = s := by simp [stepT, hs]
    rw [hid]
    exact ⟨⟨hm, hp, hrt, hs⟩, rfl⟩
  | errorEvt =>
    have hid : stepT s TEvent.errorEvt = s := by simp [stepT, hs]
    rw [hid]
    exact ⟨⟨hm, hp, hrt, hs⟩, rfl⟩
  | staleCloseAt i =>
    cases ho : s.orphans[i]? with
    | none =>
      have hid : stepT s (TEvent.staleCloseAt i) = s := by simp [stepT, ho]
      rw [hid]
      exact ⟨⟨hm, hp, hrt, hs⟩, rfl⟩
    | some a =>
      simp only [stepT, ho]
      constructor
      · refine ⟨?_, ?_, ?_, ?_⟩ <;> simp [oncloseBody, hm, hp, hrt]
      · simp [oncloseBody, hm]
  | timerFire f =>
    have hid : stepT s (TEvent.timerFire f) = s := by simp [stepT, hp]
    rw [hid]
    exact ⟨⟨hm, hp, hrt, hs⟩, rfl⟩
  | disconnect =>
    simp only [stepT, disconnectSocket, hrt]
    cases hsa : s.socketArgs <;> constructor <;> simp [Frozen, hm, hp, hrt]

theorem frozen_foldl (l : List TEvent) :
    ∀ s : TransportState, Frozen s → (∀ e ∈ l, isConnectCall e = false) →
    Frozen (List.foldl stepT s l) ∧
      (List.foldl stepT s l).connectAttempts = s.connectAttempts := by
  induction l with
  | nil => intro s h _; exact ⟨h, rfl⟩
  | cons e l ih =>
    intro s h hl
    have he : isConnectCall e = false := hl e (List.mem_cons_self _ _)
    have hstep := stepT_Frozen s e h he
    have hrest := ih (stepT s e) hstep.1
      (fun e2 he2 => hl e2 (List.mem_cons_of_mem _ he2))
    simp only [List.foldl_cons]
    exact ⟨hrest.1, by rw [hrest.2, hstep.2]⟩

/-- A manual disconnect from any reachable state yields a frozen transport. -/
theorem disconnect_Frozen (s : TransportState) (h : TimerInv s) :
    Frozen (stepT s TEvent.disconnect) := by
  unfold TimerInv at h
  cases hrt : s.reconnectTimer with
  | some p =>
    rw [hrt] at h
    simp only [Option.isSome_some, if_true] at h
    simp only [stepT, disconnectSocket, hrt]
    cases hsa : s.socketArgs <;> simp [Frozen, h]
  | none =>
    rw [hrt] at h
    simp only [Option.isSome_none, if_false] at h
    simp only [stepT, disconnectSocket, hrt]
    cases hsa : s.socketArgs <;> simp [Frozen, h]

/-- C6: calling `disconnectSocket` in any reachable state cancels the pending
reconnect timer (none remains pending), and afterwards any sequence of
callbacks that contains no external `connectSocket` call — stale closes from
the old socket included — starts no connection attempt and schedules no
reconnect. -/
theorem c6_manual_disconnect_freezes :
    ∀ (tr1 tr2 : List TEvent),
    (stepT (runTransport tr1) TEvent.disconnect).pendingTimers = 0 ∧
    (List.foldl stepT (stepT (runTransport tr1) TEvent.disconnect)
        (tr2.filter (fun e => !(isConnectCall e)))).connectAttempts =
      (stepT (runTransport tr1) TEvent.disconnect).connectAttempts ∧
    (List.foldl stepT (stepT (runTransport tr1) TEvent.disconnect)
        (tr2.filter (fun e => !(isConnectCall e)))).pendingTimers = 0 := by
  intro tr1 tr2
  have hfro := disconnect_Frozen (runTransport tr1) (runTransport_TimerInv tr1)
  have hmem : ∀ e ∈ tr2.filter (fun e => !(isConnectCall e)),
      isConnectCall e = false := by
    intro e he
    have h2 := (List.mem_filter.mp he).2
    simpa using h2
  have hrun := frozen_foldl _ _ hfro hmem
  exact ⟨hfro.2.1, hrun.2, hrun.1.2.1⟩

/- ### connect and the state-change callback (C7) -/

/-- Counterexample to C7 as stated: from the initial state, `connectSocket`
does create a socket whose ready state is CONNECTING, but it invokes the
state-change callback zero times — no `connecting` value is ever observed
through the callback (whose type carries only
`connected | disconnected | reconnecting`), so the claimed four-value
`ConnectionState` transition to `connecting` "observed via the state-change
callback" does not happen. -/
theorem c7_connect_counterexample :
    (stepT initTransport (TEvent.connect "session1" "user1" false)).socket =
      some WSReady.CONNECTING ∧
    (stepT initTransport (TEvent.connect "session1" "user1" false)).notifications
      = [] := by
  constructor <;> rfl

/-- C7 amended: `connectSocket` is a no-op whenever a socket exists in any
non-CLOSED ready state (in particular when connecting or connected);
otherwise it creates a socket in the CONNECTING ready state, records the
session, and clears the manual-disconnect flag — but it fires no state-change
callback, and the callback can only ever carry the three values
`{disconnected, connected, reconnecting}`. -/
theorem c7_connect_amended :
    ∀ (base : TransportState) (rs : WSReady) (sessionId userId : String)
      (f : Bool),
    (stepT { base with socket := some rs }
        (TEvent.connect sessionId userId f) = { base with socket := some rs } ∨
      rs = WSReady.CLOSED) ∧
    (stepT { base with socket := none }
        (TEvent.connect sessionId userId false)).socket =
      some WSReady.CONNECTING ∧
    (stepT { base with socket := none }
        (TEvent.connect sessionId userId false)).notifications =
      base.notifications ∧
    (stepT { base with socket := none }
        (TEvent.connect sessionId userId f)).isManualDisconnect = false ∧
    (stepT { base with socket := none }
        (TEvent.connect sessionId userId f)).currentSessionId = some sessionId := by
  intro base rs sessionId userId f
  refine ⟨?_, ?_, ?_, ?_, ?_⟩
  · cases rs with
    | CLOSED => exact Or.inr rfl
    | CONNECTING => exact Or.inl (by simp [stepT, connectSocket])
    | OPEN => exact Or.inl (by simp [stepT, connectSocket])
    | CLOSING => exact Or.inl (by simp [stepT, connectSocket])
  · simp [stepT, connectSocket, connectBody]
  · simp [stepT, connectSocket, connectBody]
  · cases f with
    | false => simp [stepT, connectSocket, connectBody]
    | true =>
      simp only [stepT, connectSocket, connectBody, if_true]
      simp [scheduleReconnect]
      split <;> rfl
  · cases f with
    | false => simp [stepT, connectSocket, connectBody]
    | true =>
      simp only [stepT, connectSocket, connectBody, if_true]
      simp [scheduleReconnect]
      split <;> rfl

/- ### Device monitor (C8) -/

/-- First poll under `{camera: true, microphone: false}` with a single live,
enabled video track: exactly one `camera_status on` event, camera state
latched. -/
theorem checkMediaStatus_first (audio : List MediaTrack) :
    checkMediaStatus
      (some { videoTracks := [{ readyState := TrackReady.live, enabled := true }],
              audioTracks := audio })
      { camera := true, microphone := false }
      { lastCameraStatus := none, lastMicStatus := none } =
    ({ lastCameraStatus := some true, lastMicStatus := none },
      [MonitorEvent.cameraStatus "on"]) := by
  simp [checkMediaStatus, trackOn]

/-- Steady state: once the camera has been observed on, further polls with
the same live, enabled track emit nothing and change nothing. -/
theorem checkMediaStatus_steady (audio : List MediaTrack) (m : Option Bool) :
    checkMediaStatus
      (some { videoTracks := [{ readyState := TrackReady.live, enabled := true }],
              audioTracks := audio })
      { camera := true, microphone := false }
      { lastCameraStatus := some true, lastMicStatus := m } =
    ({ lastCameraStatus := some true, lastMicStatus := m }, []) := by
  simp [checkMediaStatus, trackOn]

theorem runMonitorPolls_steady (audio : List MediaTrack) (m : Option Bool)
    (n : Nat) :
    runMonitorPolls
      (some { videoTracks := [{ readyState := TrackReady.live, enabled := true }],
              audioTracks := audio })
      { camera := true, microphone := false }
      { lastCameraStatus := some true, lastMicStatus := m } n =
    ({ lastCameraStatus := some true, lastMicStatus := m }, []) := by
  induction n with
  | zero => rfl
  | succ n ih =>
    simp only [runMonitorPolls, checkMediaStatus_steady, List.nil_append]
    exact ih

/-- C8: under a `{camera: true, microphone: false}` requirement with a stream
whose single video track is live and enabled at every poll, any positive
number of polls emits exactly one event in total — `camera_status` with
status `"on"` at the first poll — and in particular never a microphone
event. -/
theorem c8_camera_monitor_single_event :
    ∀ (n : Nat) (audio : List MediaTrack),
    (runMonitorPolls
      (some { videoTracks := [{ readyState := TrackReady.live, enabled := true }],
              audioTracks := audio })
      { camera := true, microphone := false }
      { lastCameraStatus := none, lastMicStatus := none } (n + 1)).2 =
    [MonitorEvent.cameraStatus "on"] := by
  intro n audio
  simp only [runMonitorPolls, checkMediaStatus_first, runMonitorPolls_steady,
    List.append_nil]

/- ### Violation controller (C9, C10) -/

/-- C9: a violation at t = 0 ms starts a 60-second window; after the
countdown tick at t = 10000 ms the display shows 50 s; a second violation at
t = 10000 ms resets the window to a full 60 s (not 70), restarts `startTime`
at 10000, and replaces both timers (fresh terminal timeout at 70000 ms and a
fresh countdown capturing 10000).  In general, every `addViolation` cancels
the in-flight window and timers and starts a fresh full-duration window. -/
theorem c9_violation_resets_cooling :
    (runV [VEvent.violation 0 VType.no_face "m" none "r",
        VEvent.tick 10000]).coolingPeriod.remainingSeconds = 50 ∧
    (runV [VEvent.violation 0 VType.no_face "m" none "r", VEvent.tick 10000,
        VEvent.violation 10000 VType.no_face "m" none "r"]).coolingPeriod =
      { active := true, remainingSeconds := 60, startTime := some 10000 } ∧
    (runV [VEvent.violation 0 VType.no_face "m" none "r", VEvent.tick 10000,
        VEvent.violation 10000 VType.no_face "m" none "r"]).coolingPending =
      some 70000 ∧
    (runV [VEvent.violation 0 VType.no_face "m" none "r", VEvent.tick 10000,
        VEvent.violation 10000 VType.no_face "m" none "r"]).countdownPending =
      some 10000 ∧
    (∀ (s : ViolationState) (t : Nat) (ty : VType) (msg : String)
        (img : Option String) (rnd : String),
      (vstep s (VEvent.violation t ty msg img rnd)).coolingPeriod =
        { active := true, remainingSeconds := COOLING_PERIOD_DURATION,
          startTime := some (max s.now t) } ∧
      (vstep s (VEvent.violation t ty msg img rnd)).coolingPending =
        some (max s.now t + COOLING_PERIOD_DURATION * 1000) ∧
      (vstep s (VEvent.violation t ty msg img rnd)).countdownPending =
        some (max s.now t)) := by
  refine ⟨by decide, by decide, by decide, by decide, ?_⟩
  intro s t ty msg img rnd
  refine ⟨?_, ?_, ?_⟩ <;>
    simp [vstep, addViolation, startCoolingPeriod, advanceClock]

theorem vinv_init : VInv initViolation := by
  constructor
  · intro _
    refine ⟨rfl, rfl, rfl, ?_⟩
    intro st hst
    simp [initViolation] at hst
  · intro hact
    simp [initViolation] at hact

theorem advanceClock_VInv (s : ViolationState) (t : Nat) (h : VInv s) :
    VInv (advanceClock s t) := by
  obtain ⟨hi, ha⟩ := h
  constructor
  · intro hact
    obtain ⟨h1, h2, h3, h4⟩ := hi hact
    refine ⟨h1, h2, h3, ?_⟩
    intro st hst
    have := h4 st hst
    simp only [advanceClock]
    omega
  · intro hact
    obtain ⟨st, h1, h2, h3, tL, h4, h5, h6⟩ := ha hact
    refine ⟨st, h1, h2, h3, tL, h4, ?_, h6⟩
    simp only [advanceClock]
    omega

theorem startCoolingPeriod_VInv (s : ViolationState) :
    VInv (startCoolingPeriod s) := by
  constructor
  · intro hact
    simp [startCoolingPeriod] at hact
  · intro _
    refine ⟨s.now, rfl, rfl, ?_, s.now, Nat.le_refl _, Nat.le_refl _, ?_⟩
    · intro st2 hst2
      have h2 : s.now = st2 := by simpa [startCoolingPeriod] using hst2
      exact h2.symm
    · simp [startCoolingPeriod]

theorem countdownTick_VInv (s : ViolationState) (h : VInv s) :
    VInv (countdownTick s) := by
  cases hcp : s.countdownPending with
  | none =>
    have hid : countdownTick s = s := by simp [countdownTick, hcp]
    rw [hid]
    exact h
  | some st =>
    obtain ⟨hi, ha⟩ := h
    by_cases hact : s.coolingPeriod.active = true
    · obtain ⟨st0, h1, h2, h3, tL, h4, h5, h6⟩ := ha hact
      have hst : st = st0 := h3 st hcp
      subst hst
      simp only [countdownTick, hcp]
      split
      · constructor
        · intro hact2
          simp [hact] at hact2
        · intro _
          refine ⟨st, h1, h2, ?_, s.now, by omega, Nat.le_refl _, rfl⟩
          intro st2 hst2
          exact absurd hst2 (by simp)
      · constructor
        · intro hact2
          simp [hact] at hact2
        · intro _
          refine ⟨st, h1, h2, ?_, s.now, by omega, Nat.le_refl _, rfl⟩
          intro st2 hst2
          have h7 : some st = some st2 := by simpa using hst2
          exact (Option.some.inj h7).symm
    · have hactf : s.coolingPeriod.active = false := by simpa using hact
      obtain ⟨h1, h2, h3, h4⟩ := hi hactf
      have hb := h4 st hcp
      have hrem : COOLING_PERIOD_DURATION - (s.now - st) / 1000 = 0 := by
        simp only [COOLING_PERIOD_DURATION] at hb ⊢
        omega
      simp only [countdownTick, hcp, hrem, if_pos]
      constructor
      · intro _
        refine ⟨rfl, h2, h3, ?_⟩
        intro st2 hst2
        exact absurd hst2 (by simp)
      · intro hact2
        simp [hactf] at hact2

theorem coolingExpire_VInv (s : ViolationState) (h : VInv s) :
    VInv (coolingExpire s) := by
  cases hcp : s.coolingPending with
  | none =>
    have hid : coolingExpire s = s := by simp [coolingExpire, hcp]
    rw [hid]
    exact h
  | some sched =>
    by_cases hle : sched ≤ s.now
    · have hact : s.coolingPeriod.active = true := by
        by_contra hactf
        have hactf2 : s.coolingPeriod.active = false := by simpa using hactf
        have hnone := (h.1 hactf2).2.2.1
        rw [hnone] at hcp
        exact Option.noConfusion hcp
      obtain ⟨st0, h1, h2, h3, tL, h4, h5, h6⟩ := h.2 hact
      have hsched : sched = st0 + COOLING_PERIOD_DURATION * 1000 := by
        rw [hcp] at h2
        exact Option.some.inj h2
      simp only [coolingExpire, hcp]
      rw [if_pos hle]
      constructor
      · intro _
        refine ⟨rfl, rfl, rfl, ?_⟩
        intro st2 hst2
        have hst2eq : st2 = st0 := h3 st2 (by simpa using hst2)
        subst hst2eq
        simp only [advanceClock] at *
        omega
      · intro hact2
        simp at hact2
    · have hid : coolingExpire s = s := by simp [coolingExpire, hcp, hle]
      rw [hid]
      exact h

theorem addViolation_VInv (s : ViolationState) (ty : VType) (msg : String)
    (img : Option String) (rnd : String) : VInv (addViolation s ty msg img rnd) := by
  simp only [addViolation]
  exact startCoolingPeriod_VInv _

theorem vstep_VInv (s : ViolationState) (e : VEvent) (h : VInv s) :
    VInv (vstep s e) := by
  cases e with
  | violation t ty msg img rnd => exact addViolation_VInv _ _ _ _ _
  | tick t => exact countdownTick_VInv _ (advanceClock_VInv s t h)
  | expire t => exact coolingExpire_VInv _ (advanceClock_VInv s t h)

theorem runV_VInv (tr : List VEvent) : VInv (runV tr) := by
  have haux : ∀ (l : List VEvent) (s : ViolationState), VInv s →
      VInv (List.foldl vstep s l) := by
    intro l
    induction l with
    | nil => intro s h; simpa using h
    | cons e l ih =>
      intro s h
      simp only [List.foldl_cons]
      exact ih _ (vstep_VInv s e h)
  exact haux tr initViolation vinv_init

/-- A countdown tick never increases the displayed remainder. -/
theorem countdownTick_no_increase (s : ViolationState) (h : VInv s) :
    (countdownTick s).coolingPeriod.remainingSeconds ≤
      s.coolingPeriod.remainingSeconds := by
  cases hcp : s.countdownPending with
  | none => simp [countdownTick, hcp]
  | some st =>
    have hv : (countdownTick s).coolingPeriod.remainingSeconds =
        COOLING_PERIOD_DURATION - (s.now - st) / 1000 := by
      simp only [countdownTick, hcp]
      split <;> rfl
    by_cases hact : s.coolingPeriod.active = true
    · obtain ⟨st0, h1, h2, h3, tL, h4, h5, h6⟩ := h.2 hact
      have hst : st = st0 := h3 st hcp
      subst hst
      rw [hv, h6]
      simp only [COOLING_PERIOD_DURATION]
      omega
    · have hactf : s.coolingPeriod.active = false := by simpa using hact
      obtain ⟨h1, h2, h3, h4⟩ := h.1 hactf
      have hb := h4 st hcp
      rw [hv, h1]
      simp only [COOLING_PERIOD_DURATION] at hb ⊢
      omega

/-- The terminal timeout never increases the displayed remainder. -/
theorem coolingExpire_no_increase (s : ViolationState) :
    (coolingExpire s).coolingPeriod.remainingSeconds ≤
      s.coolingPeriod.remainingSeconds := by
  cases hcp : s.coolingPending with
  | none => simp [coolingExpire, hcp]
  | some sched =>
    by_cases hle : sched ≤ s.now
    · simp only [coolingExpire, hcp]
      rw [if_pos hle]
      exact Nat.zero_le _
    · simp only [coolingExpire, hcp]
      rw [if_neg hle]

/-- C10: in every reachable controller state, `remainingSeconds` lies in
`[0, 60]`; whenever the cooling period is inactive, `remainingSeconds` is `0`
and `startTime` is `null`; and neither a countdown tick nor a window expiry
ever increases `remainingSeconds` — only a new violation restarts it. -/
theorem c10_cooling_invariant :
    ∀ tr : List VEvent,
    (runV tr).coolingPeriod.remainingSeconds ≤ COOLING_PERIOD_DURATION ∧
    ((runV tr).coolingPeriod.active = true ∨
      ((runV tr).coolingPeriod.remainingSeconds = 0 ∧
        (runV tr).coolingPeriod.startTime = none)) ∧
    (∀ t, (vstep (runV tr) (VEvent.tick t)).coolingPeriod.remainingSeconds ≤
      (runV tr).coolingPeriod.remainingSeconds) ∧
    (∀ t, (vstep (runV tr) (VEvent.expire t)).coolingPeriod.remainingSeconds ≤
      (runV tr).coolingPeriod.remainingSeconds) := by
  intro tr
  have hinv : VInv (runV tr) := runV_VInv tr
  refine ⟨?_, ?_, ?_, ?_⟩
  · by_cases hact : (runV tr).coolingPeriod.active = true
    · obtain ⟨st, _, _, _, tL, _, _, h6⟩ := hinv.2 hact
      rw [h6]
      exact Nat.sub_le _ _
    · have hactf : (runV tr).coolingPeriod.active = false := by simpa using hact
      rw [(hinv.1 hactf).1]
      exact Nat.zero_le _
  · by_cases hact : (runV tr).coolingPeriod.active = true
    · exact Or.inl hact
    · have hactf : (runV tr).coolingPeriod.active = false := by simpa using hact
      exact Or.inr ⟨(hinv.1 hactf).1, (hinv.1 hactf).2.1⟩
  · intro t
    exact countdownTick_no_increase (advanceClock (runV tr) t)
      (advanceClock_VInv _ t hinv)
  · intro t
    exact coolingExpire_no_increase (advanceClock (runV tr) t)
